import Mathlib

/-!
Verification of the adaptive note-selection and progression engine of
`music-note-tutor` (`NoteGeneratorService` in
`src/app/core/services/storage.ts`, together with its model files and the
level-configuration service).

The embedding below translates the TypeScript source directly:
JavaScript numbers that only ever hold integers become `Nat`, fractional
arithmetic becomes `Rat`, `Map` lookups become association-list or
function lookups, and the service's signal state becomes an explicit
`EngineState` record threaded through the operations.
-/

namespace NoteTutor

/-- Note names, from `models/musical-note.ts` (`NoteName`). -/
inductive NoteName where
  | C | D | E | F | G | A | B
deriving DecidableEq, Repr

/-- Clefs, from `models/musical-note.ts` (`Clef`). -/
inductive Clef where
  | treble | bass
deriving DecidableEq, Repr

/-- Difficulty levels, from `models/musical-note.ts` (`DifficultyLevel`). -/
inductive DifficultyLevel where
  | easy | hard | mixed
deriving DecidableEq, Repr

/-- Staff positions, from `models/musical-note.ts` (`StaffPosition`). -/
inductive StaffPosition where
  | line | space | ledgerAbove | ledgerBelow
deriving DecidableEq, Repr

/-- Accidentals attached to generated candidate notes in
`buildCandidatePool` (`'sharp'` / `'flat'` object fields). -/
inductive Accidental where
  | sharp | flat
deriving DecidableEq, Repr

/-- Difficulty modes, from `models/difficulty-mode.ts` (`DifficultyMode`). -/
inductive DifficultyMode where
  | dfault | easy | hard
deriving DecidableEq, Repr

/-- Clef filters, from `models/difficulty-mode.ts` (`ClefFilter`). -/
inductive ClefFilter where
  | both | treble | bass
deriving DecidableEq, Repr

/-- String rendering of a note name, as interpolated into note ids. -/
def NoteName.text : NoteName → String
  | .C => "C" | .D => "D" | .E => "E" | .F => "F"
  | .G => "G" | .A => "A" | .B => "B"

/-- String rendering of a clef, as interpolated into note ids. -/
def Clef.text : Clef → String
  | .treble => "treble"
  | .bass => "bass"

/-- A musical note, from `models/musical-note.ts` (`MusicalNote`); the
optional `accidental` field is added by `buildCandidatePool` when
accidentals are enabled. -/
structure MusicalNote where
  name : NoteName
  octave : Nat
  clef : Clef
  position : StaffPosition
  accidental : Option Accidental := none
  id : String
deriving DecidableEq, Repr

/-- A candidate note together with its computed selection weight, from
`models/musical-note.ts` (`WeightedNote extends MusicalNote`). -/
structure WeightedNote extends MusicalNote where
  weight : Rat
deriving DecidableEq, Repr

/-- Per-note performance record, from `models/performance-tracking.ts`
(`NotePerformance`); `lastSeen` is a timestamp (a `Date` in the source). -/
structure NotePerformance where
  noteId : String
  attempts : Nat
  correctAnswers : Nat
  accuracy : Rat
  lastSeen : Nat
  averageResponseTime : Rat
  consecutiveCorrect : Nat
  consecutiveIncorrect : Nat
  difficultyScore : Int
deriving DecidableEq, Repr

/-- Inclusive octave range, from `models/musical-note.ts` (`OctaveRange`). -/
structure OctaveRange where
  min : Nat
  max : Nat
deriving DecidableEq, Repr

/-- Per-level note range, from `models/level-configuration.ts`
(`NoteRange`, plus the `includeAccidentals` flag the config service sets). -/
structure NoteRange where
  trebleRange : OctaveRange
  bassRange : OctaveRange
  allowedNotes : List NoteName
  includeAccidentals : Bool
deriving DecidableEq, Repr

/-- Clef distribution weights, from `models/musical-note.ts`
(`ClefDistribution`). -/
structure ClefDistribution where
  trebleWeight : Rat
  bassWeight : Rat
deriving DecidableEq, Repr

/-- Progression criteria, from `models/musical-note.ts`
(`ProgressionCriteria`). -/
structure ProgressionCriteria where
  minAccuracy : Rat
  minQuestions : Nat
  consecutiveCorrect : Nat
deriving DecidableEq, Repr

/-- Level configuration, from `models/level-configuration.ts`
(`LevelConfiguration`).  The config service stores levels under string
keys (`'beginner'`, ...), so `level` is kept as a plain string; base
weights are the entries of the source's `Map<string, number>`. -/
structure LevelConfiguration where
  level : String
  noteRange : NoteRange
  clefDistribution : ClefDistribution
  baseWeights : List (String × Rat)
  progressionCriteria : ProgressionCriteria
deriving DecidableEq, Repr

/-- The slice of `UserProgress` (`models/user-progress.ts`) the engine
reads: global accuracy, global question count, session start. -/
structure UserProgress where
  overallAccuracy : Rat
  totalQuestionsAnswered : Nat
  sessionStartTime : Nat
deriving DecidableEq, Repr

/-- The signal state of `NoteGeneratorService`: performance ledger,
current level, recent selection history, difficulty mode, clef filter. -/
structure EngineState where
  performanceData : String → Option NotePerformance
  currentLevel : DifficultyLevel
  recentHistory : List MusicalNote
  difficultyMode : DifficultyMode
  clefFilter : ClefFilter

/-- Initial signal values of `NoteGeneratorService` (empty map, `'easy'`,
empty history, `'default'`, `'both'`). -/
def initialState : EngineState :=
  { performanceData := fun _ => none
    currentLevel := .easy
    recentHistory := []
    difficultyMode := .dfault
    clefFilter := .both }

/-- The note-id string `` `${noteName}${octave}-${clef}` `` used in
`buildCandidatePool` and `generateBaseWeights`. -/
def noteIdStr (name : NoteName) (octave : Nat) (clef : Clef) : String :=
  name.text ++ toString octave ++ "-" ++ clef.text

/-- The note-key string `` `${noteName}${octave}` `` used in
`determineStaffPosition` and the difficulty-mode filter. -/
def noteKeyStr (name : NoteName) (octave : Nat) : String :=
  name.text ++ toString octave

/-- The ascending list `min, min+1, ..., max` traversed by the source's
`for (let octave = range.min; octave <= range.max; octave++)` loops
(empty when `min > max`). -/
def octaveList (r : OctaveRange) : List Nat :=
  (List.range (r.max + 1 - r.min)).map (· + r.min)

/-- `NoteGeneratorService.determineStaffPosition`: classifies a note as
on a line, in a space, or on ledger lines above/below the staff. -/
def determineStaffPosition (name : NoteName) (octave : Nat) (clef : Clef) :
    StaffPosition :=
  let noteKey := noteKeyStr name octave
  match clef with
  | .treble =>
    let trebleLines := ["E4", "G4", "B4", "D5", "F5"]
    let trebleSpaces := ["F4", "A4", "C5", "E5"]
    if trebleLines.contains noteKey then .line
    else if trebleSpaces.contains noteKey then .space
    else if octave < 4 ∨ (octave = 4 ∧ name ∈ [NoteName.C, NoteName.D]) then
      .ledgerBelow
    else if octave > 5 ∨ (octave = 5 ∧ name ∈ [NoteName.G, NoteName.A, NoteName.B])
        ∨ octave ≥ 6 then
      .ledgerAbove
    else .space
  | .bass =>
    let bassLines := ["G2", "B2", "D3", "F3", "A3"]
    let bassSpaces := ["A2", "C3", "E3", "G3"]
    if bassLines.contains noteKey then .line
    else if bassSpaces.contains noteKey then .space
    else if octave < 2 ∨ (octave = 2 ∧ name ∈ [NoteName.E, NoteName.F]) then
      .ledgerBelow
    else if octave > 3 ∨ (octave = 3 ∧ name ∈ [NoteName.B]) ∨ octave ≥ 4 then
      .ledgerAbove
    else .space

/-- The `DIFFICULTY_NOTE_RANGES` table from `models/difficulty-mode.ts`,
indexed by clef and difficulty mode. -/
def difficultyNoteRanges (clef : Clef) (mode : DifficultyMode) : List String :=
  match clef, mode with
  | .treble, .easy =>
      ["E4", "F4", "G4", "A4", "B4", "C5", "D5", "E5", "F5"]
  | .treble, .hard =>
      ["C4", "D4", "G5", "A5", "B5", "C6", "D6", "E6", "F6", "G6", "A6", "B6", "C7"]
  | .treble, .dfault =>
      ["C4", "D4", "E4", "F4", "G4", "A4", "B4", "C5", "D5", "E5", "F5", "G5",
       "A5", "B5", "C6", "D6", "E6", "F6", "G6", "A6", "B6", "C7"]
  | .bass, .easy =>
      ["G2", "A2", "B2", "C3", "D3", "E3", "F3", "G3", "A3"]
  | .bass, .hard =>
      ["C1", "D1", "E1", "F1", "G1", "A1", "B1", "C2", "D2", "E2", "F2", "B3",
       "C4", "D4", "E4", "F4", "G4", "A4", "B4", "C5"]
  | .bass, .dfault =>
      ["C1", "D1", "E1", "F1", "G1", "A1", "B1", "C2", "D2", "E2", "F2", "G2",
       "A2", "B2", "C3", "D3", "E3", "F3", "G3", "A3", "B3", "C4", "D4", "E4",
       "F4", "G4", "A4", "B4", "C5"]

/-- The candidate notes one clef contributes in `buildCandidatePool`:
every octave in the clef's range crossed with the allowed note names,
plus sharp/flat variants when accidentals are enabled. -/
def clefCandidates (config : LevelConfiguration) (clef : Clef) :
    List MusicalNote :=
  let range := match clef with
    | .treble => config.noteRange.trebleRange
    | .bass => config.noteRange.bassRange
  (octaveList range).flatMap fun octave =>
    config.noteRange.allowedNotes.flatMap fun name =>
      let noteId := noteIdStr name octave clef
      let position := determineStaffPosition name octave clef
      let base : MusicalNote :=
        { name := name, octave := octave, clef := clef,
          position := position, id := noteId }
      if config.noteRange.includeAccidentals then
        [base,
         { base with accidental := some .sharp, id := noteId ++ "-sharp" },
         { base with accidental := some .flat, id := noteId ++ "-flat" }]
      else
        [base]

/-- `NoteGeneratorService.buildCandidatePool`: generates all notes of the
level's ranges, then filters by the difficulty mode (membership of the
note key in `DIFFICULTY_NOTE_RANGES`) and by the clef filter. -/
def buildCandidatePool (config : LevelConfiguration)
    (mode : DifficultyMode) (clefFilter : ClefFilter) : List MusicalNote :=
  let candidates :=
    clefCandidates config .treble ++ clefCandidates config .bass
  let filtered1 :=
    if mode ≠ .dfault then
      candidates.filter fun note =>
        (difficultyNoteRanges note.clef mode).contains
          (noteKeyStr note.name note.octave)
    else candidates
  if clefFilter ≠ .both then
    filtered1.filter fun note =>
      match clefFilter with
      | .treble => note.clef = Clef.treble
      | .bass => note.clef = Clef.bass
      | .both => True
  else filtered1

/-- The per-candidate body of `NoteGeneratorService.calculateWeights`:
base weight (default 1.0), adjusted by performance (accuracy factor,
consecutive-incorrect boost, mastery reduction, or novelty boost 1.3),
recency penalty from the history position, clef-distribution weight,
clamped below at 0.01. -/
def calculateNoteWeight (config : LevelConfiguration)
    (performanceMap : String → Option NotePerformance)
    (recentHistory : List MusicalNote)
    (note : MusicalNote) : WeightedNote :=
    let w0 := ((config.baseWeights.lookup note.id).getD 1)
    let w1 :=
      match performanceMap note.id with
      | some performance =>
        let accuracyFactor := 1 - performance.accuracy
        let a := w0 * (1 + accuracyFactor * 2)
        let b :=
          if performance.consecutiveIncorrect > 0 then
            a * (1 + (performance.consecutiveIncorrect : Rat) * (1/2))
          else a
        if performance.consecutiveCorrect > 3 then b * (7/10) else b
      | none => w0 * (13/10)
    let w2 :=
      match recentHistory.findIdx? (fun recent => recent.id = note.id) with
      | some recentIndex =>
          w1 * max (1/10) (1 - ((recentIndex : Rat) + 1) * (3/10))
      | none => w1
    let clefWeight :=
      match note.clef with
      | .treble => config.clefDistribution.trebleWeight
      | .bass => config.clefDistribution.bassWeight
    let w3 := w2 * clefWeight
    { note with weight := max (1/100) w3 }

/-- `NoteGeneratorService.calculateWeights` maps the per-note weight
computation over the candidate list. -/
def calculateWeights (config : LevelConfiguration)
    (performanceMap : String → Option NotePerformance)
    (recentHistory : List MusicalNote)
    (notes : List MusicalNote) : List WeightedNote :=
  notes.map (calculateNoteWeight config performanceMap recentHistory)

/-- Errors a weighted draw can surface.  The source has no explicit
empty-pool guard: on an empty pool the fallback destructures
`weightedNotes[weightedNotes.length - 1]`, which is `undefined`, so the
call crashes with a `TypeError`; an `emptyCandidatePool` error named by
the spec appears nowhere in the source. -/
inductive SelectionError where
  | typeError
  | emptyCandidatePool
deriving DecidableEq, Repr

/-- The subtraction loop of `performWeightedSelection`: subtract each
weight from the running random value and return the first note at which
the remainder drops to `≤ 0`. -/
def selectionLoop : List WeightedNote → Rat → Option MusicalNote
  | [], _ => none
  | note :: rest, random =>
    if random - note.weight ≤ 0 then some note.toMusicalNote
    else selectionLoop rest (random - note.weight)

/-- `NoteGeneratorService.performWeightedSelection`, with the random
draw made explicit: runs the subtraction loop, falls back to the last
note of the pool, and on an empty pool crashes (a `TypeError` from
destructuring `undefined`). -/
def performWeightedSelection (weightedNotes : List WeightedNote)
    (random : Rat) : Except SelectionError MusicalNote :=
  match selectionLoop weightedNotes random with
  | some note => .ok note
  | none =>
    match weightedNotes.getLast? with
    | some note => .ok note.toMusicalNote
    | none => .error .typeError

/-- `NoteGeneratorService.updatePerformanceData`, as a pure record
update: the existing record (or `none` on first attempt), the answer's
correctness, the raw response time and the current timestamp produce the
new `NotePerformance` stored under the note's id. -/
def updatePerformanceData (noteId : String)
    (existing : Option NotePerformance) (isCorrect : Bool)
    (responseTime : Rat) (now : Nat) : NotePerformance :=
  let newAttempts := ((existing.map (·.attempts)).getD 0) + 1
  let newCorrect :=
    ((existing.map (·.correctAnswers)).getD 0) + (if isCorrect then 1 else 0)
  let newAccuracy : Rat := (newCorrect : Rat) / (newAttempts : Rat)
  let avgResponseTime :=
    match existing with
    | some e =>
        (e.averageResponseTime * (e.attempts : Rat) + responseTime) /
          (newAttempts : Rat)
    | none => responseTime
  let consecutiveCorrect :=
    if isCorrect then ((existing.map (·.consecutiveCorrect)).getD 0) + 1 else 0
  let consecutiveIncorrect :=
    if !isCorrect then ((existing.map (·.consecutiveIncorrect)).getD 0) + 1
    else 0
  let difficultyScore := round ((1 - newAccuracy) * 100)
  { noteId := noteId
    attempts := newAttempts
    correctAnswers := newCorrect
    accuracy := newAccuracy
    lastSeen := now
    averageResponseTime := avgResponseTime
    consecutiveCorrect := consecutiveCorrect
    consecutiveIncorrect := consecutiveIncorrect
    difficultyScore := difficultyScore }

/-- The history bound (`maxHistorySize = 10` in `updateHistory`). -/
def maxHistorySize : Nat := 10

/-- `NoteGeneratorService.updateHistory` on the history list:
`[note, ...current.slice(0, maxHistorySize - 1)]`. -/
def updateHistory (current : List MusicalNote) (note : MusicalNote) :
    List MusicalNote :=
  note :: current.take (maxHistorySize - 1)

/-- `NoteGeneratorService.countRecentCorrectAnswers`: the source returns
the constant `0` (its comment reads "simplified for now" with a TODO to
implement proper tracking). -/
def countRecentCorrectAnswers : Nat := 0

/-- The ordered level sequence of `advanceLevel`
(`const levels: DifficultyLevel[] = ['easy', 'hard']`). -/
def levels : List DifficultyLevel := [.easy, .hard]

/-- `NoteGeneratorService.advanceLevel` on the current level, with
JavaScript `indexOf` semantics (`-1` when absent): advance when
`currentIndex < levels.length - 1`. -/
def advanceLevel (currentLevel : DifficultyLevel) : DifficultyLevel :=
  let currentIndex : Int :=
    match levels.findIdx? (fun l => l = currentLevel) with
    | some i => (i : Int)
    | none => -1
  if currentIndex < (levels.length : Int) - 1 then
    levels.getD (currentIndex + 1).toNat currentLevel
  else currentLevel

/-- `NoteGeneratorService.checkLevelProgression` on the current level:
advance exactly when global accuracy, global question count and the
(stubbed) recent-correct count all meet the level's criteria. -/
def checkLevelProgression (config : LevelConfiguration)
    (userProgress : UserProgress) (currentLevel : DifficultyLevel) :
    DifficultyLevel :=
  let meetsAccuracy :=
    userProgress.overallAccuracy ≥ config.progressionCriteria.minAccuracy
  let meetsQuestions :=
    userProgress.totalQuestionsAnswered ≥ config.progressionCriteria.minQuestions
  let recentCorrect := countRecentCorrectAnswers
  let meetsConsecutive :=
    recentCorrect ≥ config.progressionCriteria.consecutiveCorrect
  if meetsAccuracy ∧ meetsQuestions ∧ meetsConsecutive then
    advanceLevel currentLevel
  else currentLevel

/-- The state effect of `updatePerformanceData`: store the updated
record under `note.id` in a copy of the ledger. -/
def updatePerformanceDataState (s : EngineState) (note : MusicalNote)
    (isCorrect : Bool) (responseTime : Rat) (now : Nat) : EngineState :=
  { s with
    performanceData := fun key =>
      if key = note.id then
        some (updatePerformanceData note.id (s.performanceData note.id)
          isCorrect responseTime now)
      else s.performanceData key }

/-- `NoteGeneratorService.recordAnswer`: update the ledger, then run the
progression check (the level configuration and global progress are read
from the config and progress collaborators at call time).  The
`userAnswer` argument is accepted and unused, as in the source. -/
def recordAnswer (config : LevelConfiguration) (userProgress : UserProgress)
    (s : EngineState) (note : MusicalNote) (userAnswer : String)
    (isCorrect : Bool) (responseTimeMs : Rat) (now : Nat) : EngineState :=
  let s1 := updatePerformanceDataState s note isCorrect responseTimeMs now
  { s1 with currentLevel := checkLevelProgression config userProgress s1.currentLevel }

/-- The state effect of `updateHistory`. -/
def updateHistoryState (s : EngineState) (note : MusicalNote) : EngineState :=
  { s with recentHistory := updateHistory s.recentHistory note }

/-- `NoteGeneratorService.setDifficultyMode`. -/
def setDifficultyMode (s : EngineState) (mode : DifficultyMode) : EngineState :=
  { s with difficultyMode := mode }

/-- `NoteGeneratorService.setClefFilter`. -/
def setClefFilter (s : EngineState) (filter : ClefFilter) : EngineState :=
  { s with clefFilter := filter }

/-- `NoteGeneratorService.resetProgress`: clear the ledger and history
and return the level to `'easy'`. -/
def resetProgress (s : EngineState) : EngineState :=
  { s with
    performanceData := fun _ => none
    recentHistory := []
    currentLevel := .easy }

/-- One recorded answer together with the collaborator data the call
reads (level configuration and global progress). -/
structure RecordCall where
  config : LevelConfiguration
  userProgress : UserProgress
  note : MusicalNote
  userAnswer : String
  isCorrect : Bool
  responseTimeMs : Rat
  now : Nat

/-- Run a sequence of `recordAnswer` calls from a state. -/
def runRecordAnswers (s : EngineState) (calls : List RecordCall) : EngineState :=
  calls.foldl
    (fun st c =>
      recordAnswer c.config c.userProgress st c.note c.userAnswer c.isCorrect
        c.responseTimeMs c.now)
    s

/-- Position of a level in the ordered sequence `levels`
(`'mixed'` does not occur in it). -/
def levelIdx : DifficultyLevel → Nat
  | .easy => 0
  | .hard => 1
  | .mixed => 2

/-- `NoteGeneratorConfigService.generateBaseWeights`: one entry per
generated note id at the base weight, and sharp/flat entries at 0.8 of
it when accidentals are enabled. -/
def generateBaseWeights (noteRange : NoteRange) (baseWeight : Rat) :
    List (String × Rat) :=
  ([Clef.treble, Clef.bass]).flatMap fun clef =>
    let range := match clef with
      | .treble => noteRange.trebleRange
      | .bass => noteRange.bassRange
    (octaveList range).flatMap fun octave =>
      noteRange.allowedNotes.flatMap fun name =>
        let noteId := noteIdStr name octave clef
        if noteRange.includeAccidentals then
          [(noteId, baseWeight),
           (noteId ++ "-sharp", baseWeight * (8/10)),
           (noteId ++ "-flat", baseWeight * (8/10))]
        else
          [(noteId, baseWeight)]

/-- `NoteGeneratorConfigService.createBeginnerConfig`. -/
def createBeginnerConfig : LevelConfiguration :=
  let noteRange : NoteRange :=
    { trebleRange := { min := 4, max := 5 }
      bassRange := { min := 3, max := 4 }
      allowedNotes := [.C, .D, .E, .F, .G]
      includeAccidentals := false }
  { level := "beginner"
    noteRange := noteRange
    clefDistribution := { trebleWeight := 8/10, bassWeight := 2/10 }
    baseWeights := generateBaseWeights noteRange 1
    progressionCriteria :=
      { minAccuracy := 3/4, minQuestions := 20, consecutiveCorrect := 5 } }

/-- The weighting formula as the specification words it: base weight
(`baseWeights[item.id]`, default 1.0), times the performance adjustment
(`1 + (1 - accuracy) * 2`, times `1 + consecutiveIncorrect * 0.5` when
`consecutiveIncorrect > 0`, times `0.7` when `consecutiveCorrect > 3`;
`1.3` when no record exists), times the recency multiplier
`max(0.1, 1 - (k+1)*0.3)` at 0-based history position `k`, times the
clef-distribution weight. -/
def specNoteWeight (config : LevelConfiguration)
    (performanceMap : String → Option NotePerformance)
    (recentHistory : List MusicalNote) (note : MusicalNote) : Rat :=
  let base := (config.baseWeights.lookup note.id).getD 1
  let perfAdjustment :=
    match performanceMap note.id with
    | some p =>
        (1 + (1 - p.accuracy) * 2) *
        (if p.consecutiveIncorrect > 0 then
            1 + (p.consecutiveIncorrect : Rat) * (1/2)
          else 1) *
        (if p.consecutiveCorrect > 3 then 7/10 else 1)
    | none => 13/10
  let recencyMultiplier :=
    match recentHistory.findIdx? (fun recent => recent.id = note.id) with
    | some k => max (1/10) (1 - ((k : Rat) + 1) * (3/10))
    | none => 1
  let categoryWeight :=
    match note.clef with
    | .treble => config.clefDistribution.trebleWeight
    | .bass => config.clefDistribution.bassWeight
  base * perfAdjustment * recencyMultiplier * categoryWeight

/-! ## Theorems -/

/-- The per-note weight equals the clamped product the spec describes. -/
lemma calculateNoteWeight_eq_spec (config : LevelConfiguration)
    (pm : String → Option NotePerformance) (hist : List MusicalNote)
    (note : MusicalNote) :
    calculateNoteWeight config pm hist note =
      { note with weight := max (1/100) (specNoteWeight config pm hist note) } := by
  unfold calculateNoteWeight specNoteWeight
  cases hp : pm note.id <;>
  cases hk : hist.findIdx? (fun recent => recent.id = note.id) <;>
  cases hc : note.clef <;>
  simp only [hp, hk, hc] <;>
  (try split_ifs) <;>
  · congr 1
    ring_nf

/-- C1: `calculateWeights` assigns every candidate the weight the spec
describes — base weight (default 1.0) times the performance adjustment
(or the 1.3 novelty boost), times the recency multiplier
`max(0.1, 1 - (k+1)*0.3)` at history position `k`, times the clef
distribution weight, clamped below at 0.01 — and consequently every
returned weight is at least 0.01 for any ledger/history state. -/
theorem calculateWeights_spec_weight_and_min (config : LevelConfiguration)
    (pm : String → Option NotePerformance) (hist : List MusicalNote)
    (notes : List MusicalNote) :
    calculateWeights config pm hist notes =
      notes.map (fun note =>
        { note with weight := max (1/100) (specNoteWeight config pm hist note) }) ∧
    ∀ w ∈ calculateWeights config pm hist notes, (1/100 : Rat) ≤ w.weight := by
  constructor
  · unfold calculateWeights
    exact List.map_congr_left fun note _ =>
      calculateNoteWeight_eq_spec config pm hist note
  · intro w hw
    unfold calculateWeights at hw
    rcases List.mem_map.mp hw with ⟨note, _, rfl⟩
    rw [calculateNoteWeight_eq_spec]
    exact le_max_left _ _

/-- A concrete note used to instantiate theorems: middle C on the
treble staff, as `buildCandidatePool` generates it. -/
def sampleNote : MusicalNote :=
  { name := .C, octave := 4, clef := .treble,
    position := determineStaffPosition .C 4 .treble, id := "C4-treble" }

/-- Witness for C1: at the beginner configuration with an empty ledger
and history, the weight computed for middle C is at least 0.01. -/
theorem calculateWeights_spec_weight_and_min_witness :
    (1/100 : Rat) ≤
      (calculateNoteWeight createBeginnerConfig (fun _ => none) [] sampleNote).weight :=
  (calculateWeights_spec_weight_and_min createBeginnerConfig (fun _ => none) []
      [sampleNote]).2
    (calculateNoteWeight createBeginnerConfig (fun _ => none) [] sampleNote)
    (by simp [calculateWeights])

/-- Any note the subtraction loop returns comes from the pool. -/
lemma selectionLoop_mem {ws : List WeightedNote} {r : Rat} {n : MusicalNote}
    (h : selectionLoop ws r = some n) : ∃ w ∈ ws, n = w.toMusicalNote := by
  induction ws generalizing r with
  | nil => simp [selectionLoop] at h
  | cons head tail ih =>
    by_cases hle : r - head.weight ≤ 0
    · refine ⟨head, List.mem_cons_self _ _, ?_⟩
      simp [selectionLoop, hle] at h
      exact h.symm
    · simp only [selectionLoop, if_neg hle] at h
      rcases ih h with ⟨w, hw, rfl⟩
      exact ⟨w, List.mem_cons_of_mem _ hw, rfl⟩

/-- C2 (amended): for every non-empty weighted pool and every draw,
`performWeightedSelection` returns an item of the pool (first remainder
drop, else the last-note fallback); on the empty pool it does not raise
a guarded `EmptyCandidatePool` error — the fallback destructures the
missing last element, which crashes (`TypeError`). -/
theorem performWeightedSelection_valid_or_crash :
    (∀ (ws : List WeightedNote) (r : Rat), ws ≠ [] →
      ∃ w ∈ ws, performWeightedSelection ws r = .ok w.toMusicalNote) ∧
    (∀ r : Rat, performWeightedSelection [] r = .error .typeError) := by
  constructor
  · intro ws r hne
    unfold performWeightedSelection
    cases hloop : selectionLoop ws r with
    | some n =>
      rcases selectionLoop_mem hloop with ⟨w, hw, rfl⟩
      exact ⟨w, hw, rfl⟩
    | none =>
      refine ⟨ws.getLast hne, List.getLast_mem hne, ?_⟩
      rw [List.getLast?_eq_getLast ws hne]
  · intro r
    rfl

/-- Counterexample for C2 as stated: on the empty pool the selector
produces the crash outcome, not a distinct `EmptyCandidatePool` error. -/
theorem performWeightedSelection_empty_not_guarded :
    performWeightedSelection [] 0 = .error .typeError ∧
    performWeightedSelection [] 0 ≠ .error .emptyCandidatePool := by
  constructor
  · rfl
  · intro h
    simp [performWeightedSelection, selectionLoop] at h

/-- A concrete weighted note for instantiating selector theorems. -/
def sampleWeighted : WeightedNote :=
  { name := .C, octave := 4, clef := .treble,
    position := determineStaffPosition .C 4 .treble, id := "C4-treble",
    weight := 1 }

/-- Witness for C2 (amended): on the singleton pool the selection with
draw 1/2 succeeds with a pool member, and the empty pool crashes. -/
theorem performWeightedSelection_valid_or_crash_witness :
    (∃ w ∈ [sampleWeighted],
      performWeightedSelection [sampleWeighted] (1/2) = .ok w.toMusicalNote) ∧
    performWeightedSelection [] (1/2) = .error .typeError :=
  ⟨performWeightedSelection_valid_or_crash.1 [sampleWeighted] (1/2) (by simp),
   performWeightedSelection_valid_or_crash.2 (1/2)⟩

/-- C4: one `recordAttempt` update of a performance record increments
`attempts`, increments `correctAnswers` iff the answer is correct,
recomputes `accuracy = correct/attempts`, updates the response-time
running mean (`(old*oldAttempts + rt)/newAttempts`, first attempt sets
it to `rt`), and therefore `attempts` and `correctAnswers` never
decrease and `correctAnswers ≤ attempts` is preserved. -/
theorem updatePerformanceData_ledger (noteId : String)
    (existing : Option NotePerformance) (isCorrect : Bool) (rt : Rat)
    (now : Nat)
    (hinv : ∀ p, existing = some p → p.correctAnswers ≤ p.attempts) :
    (updatePerformanceData noteId existing isCorrect rt now).attempts =
      ((existing.map (·.attempts)).getD 0) + 1 ∧
    (updatePerformanceData noteId existing isCorrect rt now).correctAnswers =
      ((existing.map (·.correctAnswers)).getD 0) +
        (if isCorrect then 1 else 0) ∧
    (updatePerformanceData noteId existing isCorrect rt now).accuracy =
      ((updatePerformanceData noteId existing isCorrect rt now).correctAnswers : Rat) /
        ((updatePerformanceData noteId existing isCorrect rt now).attempts : Rat) ∧
    (updatePerformanceData noteId existing isCorrect rt now).averageResponseTime =
      (match existing with
        | some e =>
            (e.averageResponseTime * (e.attempts : Rat) + rt) /
              (((e.attempts + 1 : Nat) : Rat))
        | none => rt) ∧
    ((existing.map (·.attempts)).getD 0) ≤
      (updatePerformanceData noteId existing isCorrect rt now).attempts ∧
    ((existing.map (·.correctAnswers)).getD 0) ≤
      (updatePerformanceData noteId existing isCorrect rt now).correctAnswers ∧
    (updatePerformanceData noteId existing isCorrect rt now).correctAnswers ≤
      (updatePerformanceData noteId existing isCorrect rt now).attempts := by
  unfold updatePerformanceData
  cases existing with
  | none =>
    refine ⟨rfl, rfl, rfl, rfl, ?_, ?_, ?_⟩ <;> cases isCorrect <;> simp
  | some e =>
    have he := hinv e rfl
    refine ⟨rfl, rfl, rfl, by simp, ?_, ?_, ?_⟩ <;>
      cases isCorrect <;> simp <;> omega

/-- A concrete prior performance record (2 attempts, 1 correct). -/
def sampleRecord : NotePerformance :=
  { noteId := "C4-treble", attempts := 2, correctAnswers := 1,
    accuracy := 1/2, lastSeen := 0, averageResponseTime := 1200,
    consecutiveCorrect := 1, consecutiveIncorrect := 0,
    difficultyScore := 50 }

/-- Witness for C4 at a concrete prior record. -/
theorem updatePerformanceData_ledger_witness :
    (updatePerformanceData "C4-treble" (some sampleRecord) true 800 3).attempts =
      (((some sampleRecord).map (·.attempts)).getD 0) + 1 ∧
    (updatePerformanceData "C4-treble" (some sampleRecord) true 800 3).correctAnswers =
      (((some sampleRecord).map (·.correctAnswers)).getD 0) +
        (if true then 1 else 0) ∧
    (updatePerformanceData "C4-treble" (some sampleRecord) true 800 3).accuracy =
      ((updatePerformanceData "C4-treble" (some sampleRecord) true 800 3).correctAnswers : Rat) /
        ((updatePerformanceData "C4-treble" (some sampleRecord) true 800 3).attempts : Rat) ∧
    (updatePerformanceData "C4-treble" (some sampleRecord) true 800 3).averageResponseTime =
      (match (some sampleRecord : Option NotePerformance) with
        | some e =>
            (e.averageResponseTime * (e.attempts : Rat) + 800) /
              (((e.attempts + 1 : Nat) : Rat))
        | none => 800) ∧
    (((some sampleRecord).map (·.attempts)).getD 0) ≤
      (updatePerformanceData "C4-treble" (some sampleRecord) true 800 3).attempts ∧
    (((some sampleRecord).map (·.correctAnswers)).getD 0) ≤
      (updatePerformanceData "C4-treble" (some sampleRecord) true 800 3).correctAnswers ∧
    (updatePerformanceData "C4-treble" (some sampleRecord) true 800 3).correctAnswers ≤
      (updatePerformanceData "C4-treble" (some sampleRecord) true 800 3).attempts :=
  updatePerformanceData_ledger "C4-treble" (some sampleRecord) true 800 3
    (by intro p hp; cases hp; decide)

/-- C5: after any update, the streak counters take the reset-and-bump
form — the updated `consecutiveCorrect` is the old value plus one on a
correct answer and 0 otherwise, symmetrically for
`consecutiveIncorrect` — so exactly one of the two is nonzero. -/
theorem updatePerformanceData_streak_exclusive (noteId : String)
    (existing : Option NotePerformance) (isCorrect : Bool) (rt : Rat)
    (now : Nat) :
    (updatePerformanceData noteId existing isCorrect rt now).consecutiveCorrect =
      (if isCorrect then ((existing.map (·.consecutiveCorrect)).getD 0) + 1
        else 0) ∧
    (updatePerformanceData noteId existing isCorrect rt now).consecutiveIncorrect =
      (if isCorrect then 0
        else ((existing.map (·.consecutiveIncorrect)).getD 0) + 1) ∧
    (((updatePerformanceData noteId existing isCorrect rt now).consecutiveCorrect ≠ 0 ∧
      (updatePerformanceData noteId existing isCorrect rt now).consecutiveIncorrect = 0) ∨
     ((updatePerformanceData noteId existing isCorrect rt now).consecutiveCorrect = 0 ∧
      (updatePerformanceData noteId existing isCorrect rt now).consecutiveIncorrect ≠ 0)) := by
  unfold updatePerformanceData
  cases isCorrect <;> simp

/-- Counterexample for C6 as stated: a negative response time (-5 ms) is
neither rejected nor clamped to 0 — the update succeeds and stores the
raw negative value as the average response time. -/
theorem updatePerformanceData_negative_not_clamped :
    (updatePerformanceData "C4-treble" none true (-5) 0).averageResponseTime = -5 ∧
    (updatePerformanceData "C4-treble" none true (-5) 0).averageResponseTime ≠ 0 ∧
    (updatePerformanceData "C4-treble" none true (-5) 0).attempts = 1 ∧
    (updatePerformanceData "C4-treble" none true (-5) 0).correctAnswers = 1 := by
  refine ⟨rfl, ?_, rfl, rfl⟩
  intro h
  simp [updatePerformanceData] at h

/-- C6 (amended): a negative response time is accepted unvalidated — no
rejection path exists and no clamping occurs; the raw value enters the
running mean unchanged while the attempt/correct counts still update. -/
theorem updatePerformanceData_negative_passthrough (noteId : String)
    (existing : Option NotePerformance) (isCorrect : Bool) (rt : Rat)
    (now : Nat) (hneg : rt < 0) :
    (updatePerformanceData noteId existing isCorrect rt now).attempts =
      ((existing.map (·.attempts)).getD 0) + 1 ∧
    (updatePerformanceData noteId existing isCorrect rt now).correctAnswers =
      ((existing.map (·.correctAnswers)).getD 0) +
        (if isCorrect then 1 else 0) ∧
    (updatePerformanceData noteId existing isCorrect rt now).averageResponseTime =
      (match existing with
        | some e =>
            (e.averageResponseTime * (e.attempts : Rat) + rt) /
              (((e.attempts + 1 : Nat) : Rat))
        | none => rt) ∧
    (existing = none →
      (updatePerformanceData noteId existing isCorrect rt now).averageResponseTime < 0) := by
  unfold updatePerformanceData
  cases existing with
  | none => exact ⟨rfl, rfl, rfl, fun _ => hneg⟩
  | some e =>
    refine ⟨rfl, rfl, by simp, by intro h; cases h⟩

/-- Witness for C6 (amended) at a first attempt with -5 ms. -/
theorem updatePerformanceData_negative_passthrough_witness :
    (updatePerformanceData "C4-treble" none true (-5) 0).attempts =
      (((none : Option NotePerformance)).map (·.attempts)).getD 0 + 1 ∧
    (updatePerformanceData "C4-treble" none true (-5) 0).correctAnswers =
      (((none : Option NotePerformance)).map (·.correctAnswers)).getD 0 +
        (if true then 1 else 0) ∧
    (updatePerformanceData "C4-treble" none true (-5) 0).averageResponseTime =
      (match (none : Option NotePerformance) with
        | some e =>
            (e.averageResponseTime * (e.attempts : Rat) + (-5)) /
              (((e.attempts + 1 : Nat) : Rat))
        | none => (-5 : Rat)) ∧
    ((none : Option NotePerformance) = none →
      (updatePerformanceData "C4-treble" none true (-5) 0).averageResponseTime < 0) :=
  updatePerformanceData_negative_passthrough "C4-treble" none true (-5) 0
    (by norm_num)

/-- C3 (code bug): `countRecentCorrectAnswers` is the constant 0 stub,
so at the beginner criteria (min accuracy 0.75, min questions 20,
consecutive-correct 5) a learner with global accuracy 0.9, 100 answered
questions and an actual streak of 10 — every criterion of the claim
satisfied — still does not advance: the progression check compares the
criterion against the stub's 0, not against the learner's streak. -/
theorem checkLevelProgression_stub_blocks_transition :
    countRecentCorrectAnswers = 0 ∧
    ((3/4 : Rat) ≤ 9/10 ∧ (20 : Nat) ≤ 100 ∧ (5 : Nat) ≤ 10) ∧
    checkLevelProgression createBeginnerConfig
      { overallAccuracy := 9/10, totalQuestionsAnswered := 100,
        sessionStartTime := 0 } .easy = .easy := by
  refine ⟨rfl, ⟨by norm_num, by norm_num, by norm_num⟩, ?_⟩
  unfold checkLevelProgression countRecentCorrectAnswers
  norm_num [createBeginnerConfig]

/-- The progression check either keeps the level or advances it. -/
lemma checkLevelProgression_eq_or_advance (config : LevelConfiguration)
    (p : UserProgress) (l : DifficultyLevel) :
    checkLevelProgression config p l = l ∨
    checkLevelProgression config p l = advanceLevel l := by
  unfold checkLevelProgression
  simp only []
  split_ifs with h
  · exact Or.inr rfl
  · exact Or.inl rfl

/-- `advanceLevel` sends `'easy'` to `'hard'` and fixes `'hard'`. -/
lemma advanceLevel_easy_hard :
    advanceLevel .easy = .hard ∧ advanceLevel .hard = .hard := ⟨rfl, rfl⟩

/-- The level after a `recordAnswer` step. -/
lemma recordAnswer_currentLevel (config : LevelConfiguration)
    (p : UserProgress) (s : EngineState) (note : MusicalNote) (ua : String)
    (b : Bool) (rt : Rat) (now : Nat) :
    (recordAnswer config p s note ua b rt now).currentLevel =
      checkLevelProgression config p s.currentLevel := rfl

/-- States reachable from the initial state by `recordAnswer` calls
never carry the `'mixed'` level (it is outside `advanceLevel`'s ordered
sequence `['easy', 'hard']`). -/
lemma runRecordAnswers_level_ne_mixed (calls : List RecordCall) :
    (runRecordAnswers initialState calls).currentLevel ≠ .mixed := by
  suffices h : ∀ (s : EngineState) (cs : List RecordCall),
      s.currentLevel ≠ .mixed →
      (runRecordAnswers s cs).currentLevel ≠ .mixed by
    exact h initialState calls (by simp [initialState])
  intro s cs
  induction cs generalizing s with
  | nil => intro h; exact h
  | cons c rest ih =>
    intro hs
    apply ih
    rw [recordAnswer_currentLevel]
    rcases checkLevelProgression_eq_or_advance c.config c.userProgress
        s.currentLevel with h | h
    · rw [h]; exact hs
    · rw [h]
      cases hl : s.currentLevel with
      | easy => simp [advanceLevel_easy_hard.1]
      | hard => simp [advanceLevel_easy_hard.2]
      | mixed => exact absurd hl hs

/-- C7: along any sequence of `recordAnswer` calls from the initial
state, one further call either keeps the current level or advances it by
exactly one position of the ordered sequence `['easy', 'hard']` (never
regresses, never skips), and at the highest level `'hard'` the
progression evaluation is a no-op even when the criteria are met. -/
theorem recordAnswer_tier_monotone_one_step (calls : List RecordCall)
    (c : RecordCall) :
    (levelIdx (recordAnswer c.config c.userProgress
        (runRecordAnswers initialState calls) c.note c.userAnswer
        c.isCorrect c.responseTimeMs c.now).currentLevel =
      levelIdx (runRecordAnswers initialState calls).currentLevel ∨
     levelIdx (recordAnswer c.config c.userProgress
        (runRecordAnswers initialState calls) c.note c.userAnswer
        c.isCorrect c.responseTimeMs c.now).currentLevel =
      levelIdx (runRecordAnswers initialState calls).currentLevel + 1) ∧
    levelIdx (runRecordAnswers initialState calls).currentLevel ≤
      levelIdx (recordAnswer c.config c.userProgress
        (runRecordAnswers initialState calls) c.note c.userAnswer
        c.isCorrect c.responseTimeMs c.now).currentLevel ∧
    ((runRecordAnswers initialState calls).currentLevel = .hard →
      (recordAnswer c.config c.userProgress
        (runRecordAnswers initialState calls) c.note c.userAnswer
        c.isCorrect c.responseTimeMs c.now).currentLevel = .hard) := by
  have hmix := runRecordAnswers_level_ne_mixed calls
  rw [recordAnswer_currentLevel] at *
  rcases checkLevelProgression_eq_or_advance c.config c.userProgress
      (runRecordAnswers initialState calls).currentLevel with h | h <;>
    rw [h] <;>
    cases hl : (runRecordAnswers initialState calls).currentLevel <;>
    simp_all [advanceLevel_easy_hard.1, advanceLevel_easy_hard.2, levelIdx]

/-- A concrete `recordAnswer` call for instantiating theorems. -/
def sampleCall : RecordCall :=
  { config := createBeginnerConfig
    userProgress :=
      { overallAccuracy := 9/10, totalQuestionsAnswered := 100,
        sessionStartTime := 0 }
    note := sampleNote
    userAnswer := "C"
    isCorrect := true
    responseTimeMs := 1000
    now := 1 }

/-- Witness for C7 at the initial state and a concrete call. -/
theorem recordAnswer_tier_monotone_one_step_witness :
    (levelIdx (recordAnswer sampleCall.config sampleCall.userProgress
        (runRecordAnswers initialState []) sampleCall.note
        sampleCall.userAnswer sampleCall.isCorrect
        sampleCall.responseTimeMs sampleCall.now).currentLevel =
      levelIdx (runRecordAnswers initialState []).currentLevel ∨
     levelIdx (recordAnswer sampleCall.config sampleCall.userProgress
        (runRecordAnswers initialState []) sampleCall.note
        sampleCall.userAnswer sampleCall.isCorrect
        sampleCall.responseTimeMs sampleCall.now).currentLevel =
      levelIdx (runRecordAnswers initialState []).currentLevel + 1) ∧
    levelIdx (runRecordAnswers initialState []).currentLevel ≤
      levelIdx (recordAnswer sampleCall.config sampleCall.userProgress
        (runRecordAnswers initialState []) sampleCall.note
        sampleCall.userAnswer sampleCall.isCorrect
        sampleCall.responseTimeMs sampleCall.now).currentLevel ∧
    ((runRecordAnswers initialState []).currentLevel = .hard →
      (recordAnswer sampleCall.config sampleCall.userProgress
        (runRecordAnswers initialState []) sampleCall.note
        sampleCall.userAnswer sampleCall.isCorrect
        sampleCall.responseTimeMs sampleCall.now).currentLevel = .hard) :=
  recordAnswer_tier_monotone_one_step [] sampleCall

/-- `buildCandidatePool` as the service invokes it: the difficulty mode
and clef filter are read from the engine's signal state. -/
def buildCandidatePoolState (config : LevelConfiguration)
    (s : EngineState) : List MusicalNote :=
  buildCandidatePool config s.difficultyMode s.clefFilter

/-- C8: candidate-pool construction is deterministic — two states that
agree on the difficulty mode and clef filter yield, under the same level
configuration, the same ordered candidate list and hence the same
ordered id sequence, independent of the ledger, history, or level. -/
theorem buildCandidatePool_deterministic (config : LevelConfiguration)
    (s1 s2 : EngineState) (hm : s1.difficultyMode = s2.difficultyMode)
    (hf : s1.clefFilter = s2.clefFilter) :
    buildCandidatePoolState config s1 = buildCandidatePoolState config s2 ∧
    (buildCandidatePoolState config s1).map (·.id) =
      (buildCandidatePoolState config s2).map (·.id) := by
  unfold buildCandidatePoolState
  rw [hm, hf]
  exact ⟨rfl, rfl⟩

/-- A state with a populated ledger and history, level `'hard'`, but the
same filters as the initial state. -/
def busyState : EngineState :=
  { performanceData := fun key =>
      if key = "C4-treble" then some sampleRecord else none
    currentLevel := .hard
    recentHistory := [sampleNote]
    difficultyMode := .dfault
    clefFilter := .both }

/-- Witness for C8: the initial state and a state with a different
ledger, history and level produce identical candidate pools. -/
theorem buildCandidatePool_deterministic_witness :
    buildCandidatePoolState createBeginnerConfig initialState =
      buildCandidatePoolState createBeginnerConfig busyState ∧
    (buildCandidatePoolState createBeginnerConfig initialState).map (·.id) =
      (buildCandidatePoolState createBeginnerConfig busyState).map (·.id) :=
  buildCandidatePool_deterministic createBeginnerConfig initialState busyState
    rfl rfl

/-- C9: the selection history is a bounded most-recent-first sequence —
`updateHistory` pushes the new note onto the front of the previous
history truncated to `maxHistorySize - 1` entries, the result never
exceeds `maxHistorySize = 10` entries, recording answers and changing
the mode or clef filter never touch the history, and only
`resetProgress` empties it. -/
theorem updateHistory_bounded_push_front (current : List MusicalNote)
    (note : MusicalNote) (s : EngineState) (call : RecordCall)
    (mode : DifficultyMode) (filter : ClefFilter) :
    updateHistory current note = note :: current.take (maxHistorySize - 1) ∧
    (updateHistory current note).length ≤ maxHistorySize ∧
    (updateHistoryState s note).recentHistory =
      note :: s.recentHistory.take (maxHistorySize - 1) ∧
    (recordAnswer call.config call.userProgress s call.note call.userAnswer
      call.isCorrect call.responseTimeMs call.now).recentHistory =
      s.recentHistory ∧
    (setDifficultyMode s mode).recentHistory = s.recentHistory ∧
    (setClefFilter s filter).recentHistory = s.recentHistory ∧
    (resetProgress s).recentHistory = [] := by
  refine ⟨rfl, ?_, rfl, rfl, rfl, rfl, rfl⟩
  simp only [updateHistory, maxHistorySize, List.length_cons, List.length_take]
  omega

/-- C10: `recordAnswer` writes the ledger only at `note.id` — the record
under `note.id` becomes the `updatePerformanceData` result and every
other key is unchanged — and it leaves the selection history, the
difficulty mode and the clef filter untouched. -/
theorem recordAnswer_frame (config : LevelConfiguration)
    (progress : UserProgress) (s : EngineState) (note : MusicalNote)
    (ua : String) (isCorrect : Bool) (rt : Rat) (now : Nat) :
    (∀ key, key ≠ note.id →
      (recordAnswer config progress s note ua isCorrect rt now).performanceData key =
        s.performanceData key) ∧
    (recordAnswer config progress s note ua isCorrect rt now).performanceData note.id =
      some (updatePerformanceData note.id (s.performanceData note.id)
        isCorrect rt now) ∧
    (recordAnswer config progress s note ua isCorrect rt now).recentHistory =
      s.recentHistory ∧
    (recordAnswer config progress s note ua isCorrect rt now).difficultyMode =
      s.difficultyMode ∧
    (recordAnswer config progress s note ua isCorrect rt now).clefFilter =
      s.clefFilter := by
  refine ⟨?_, ?_, rfl, rfl, rfl⟩
  · intro key hk
    simp [recordAnswer, updatePerformanceDataState, if_neg hk]
  · simp [recordAnswer, updatePerformanceDataState]

/-- Witness for C10: recording an answer for middle C leaves the ledger
entry of `"D4-treble"` untouched, stores the update under
`"C4-treble"`, and preserves history, mode and filter. -/
theorem recordAnswer_frame_witness :
    (recordAnswer createBeginnerConfig sampleCall.userProgress busyState
        sampleNote "C" true 1000 1).performanceData "D4-treble" =
      busyState.performanceData "D4-treble" ∧
    (recordAnswer createBeginnerConfig sampleCall.userProgress busyState
        sampleNote "C" true 1000 1).performanceData "C4-treble" =
      some (updatePerformanceData "C4-treble"
        (busyState.performanceData "C4-treble") true 1000 1) ∧
    (recordAnswer createBeginnerConfig sampleCall.userProgress busyState
        sampleNote "C" true 1000 1).recentHistory = busyState.recentHistory :=
  ⟨(recordAnswer_frame createBeginnerConfig sampleCall.userProgress busyState
      sampleNote "C" true 1000 1).1 "D4-treble" (by decide),
   (recordAnswer_frame createBeginnerConfig sampleCall.userProgress busyState
      sampleNote "C" true 1000 1).2.1,
   (recordAnswer_frame createBeginnerConfig sampleCall.userProgress busyState
      sampleNote "C" true 1000 1).2.2.1⟩

end NoteTutor
